import Mathlib

/-!
Verification of the bot lifecycle controller and OCR post-processing
utilities of `src/model/bot.py` (class `Bot`).

The embedding models the observable state of a `Bot` instance: its
status, progress, configuration flag, the number of worker threads
launched, the log messages sent to the controller, and the counts of
status/progress notifications delivered to the controller.  External
collaborators (the keyboard, the controller UI, the OCR engine, the
other thread mutating status during `time.sleep(1)`) are modelled as
explicit inputs: key states, fragment lists, and an interference
schedule.
-/

namespace BotModel

/-- `BotStatus` enum from `bot.py` lines 24-31. -/
inductive BotStatus where
  | RUNNING
  | PAUSED
  | STOPPED
  | CONFIGURING
deriving DecidableEq, Repr

open BotStatus

/-- Observable state of a `Bot` instance.  `threadsStarted` counts worker
thread launches (`Thread(target=self.main_loop).start()`); `log` is the
sequence of messages sent via `controller.update_log`; `notifyStatus` and
`notifyProgress` count calls to `controller.update_status` and
`controller.update_progress`. -/
structure BotState where
  status : BotStatus
  progress : ℚ
  options_set : Bool
  threadsStarted : ℕ
  log : List String
  notifyStatus : ℕ
  notifyProgress : ℕ
deriving DecidableEq, Repr

/-- Class-level defaults of `Bot` (lines 41-44): `status = STOPPED`,
`progress = 0`, `options_set = False`, no thread. -/
def initBot : BotState :=
  { status := STOPPED, progress := 0, options_set := false,
    threadsStarted := 0, log := [], notifyStatus := 0, notifyProgress := 0 }

/-- `Bot.set_status` (lines 198-205): writes the status field and notifies
the controller. -/
def set_status (st : BotStatus) (s : BotState) : BotState :=
  { s with status := st, notifyStatus := s.notifyStatus + 1 }

/-- `Bot.reset_progress` (lines 182-187): sets progress to 0 and notifies
the controller. -/
def reset_progress (s : BotState) : BotState :=
  { s with progress := 0, notifyProgress := s.notifyProgress + 1 }

/-- `Bot.update_progress` (lines 189-196): stores the given value in the
progress field, with no validation, and notifies the controller. -/
def update_progress (p : ℚ) (s : BotState) : BotState :=
  { s with progress := p, notifyProgress := s.notifyProgress + 1 }

/-- `Bot.log_msg` (lines 207-214): sends a message to the controller log.
The `overwrite` flag only affects how the controller displays it, so the
model records every sent message. -/
def log_msg (m : String) (s : BotState) : BotState :=
  { s with log := s.log ++ [m] }

/-- `Bot.clear_log` (lines 216-220). -/
def clear_log (s : BotState) : BotState :=
  { s with log := [] }

/-- `Bot.play_pause` (lines 91-111). -/
def play_pause (s : BotState) : BotState :=
  if s.status = STOPPED then
    let s1 := clear_log s
    if s1.options_set = false then
      log_msg "Options not set. Please set options before starting." s1
    else
      let s2 := log_msg "Starting bot..." s1
      let s3 := reset_progress s2
      let s4 := set_status RUNNING s3
      { s4 with threadsStarted := s4.threadsStarted + 1 }
  else if s.status = RUNNING then
    set_status PAUSED (log_msg "Pausing bot..." s)
  else if s.status = PAUSED then
    set_status RUNNING (log_msg "Resuming bot..." s)
  else
    s

/-- `Bot.stop` (lines 113-122). -/
def stop (s : BotState) : BotState :=
  let s1 := log_msg "Manual stop requested. Attempting to stop..." s
  if s1.status ≠ STOPPED then
    reset_progress (set_status STOPPED s1)
  else
    log_msg "Bot is already stopped." s1

/-- The three key states polled by `Bot.__check_interrupt`:
`keyboard.is_pressed` for the pause key "-", the resume key "=", and the
stop key "ESC". -/
structure KeyState where
  pauseKey : Bool
  resumeKey : Bool
  stopKey : Bool
deriving DecidableEq, Repr

/-- No key held down. -/
def quietKeys : KeyState := ⟨false, false, false⟩

/-- `Bot.__check_interrupt` (lines 124-137).  Note the `elif` chain: the
pause-key branch is examined first, the resume-key branch only if the
pause key is not pressed, and the stop-key branch only if neither of the
other two keys is pressed. -/
def check_interrupt (k : KeyState) (s : BotState) : BotState :=
  if k.pauseKey then
    if s.status = RUNNING then set_status PAUSED (log_msg "Pausing bot..." s) else s
  else if k.resumeKey then
    if s.status = PAUSED then set_status RUNNING (log_msg "Resuming bot..." s) else s
  else if k.stopKey then
    stop s
  else
    s

/-- Environment of one call to `status_check_passed`: `keys i` is the key
state observed by the poll in loop iteration `i`, and `ext i` is the
interference applied by other threads during `time.sleep(1)` of iteration
`i` (status may be changed externally while the worker sleeps). -/
structure Sched where
  keys : ℕ → KeyState
  ext : ℕ → BotState → BotState

/-- The quiet environment: no key is ever pressed and no other thread
touches the state. -/
def idSched : Sched := ⟨fun _ => quietKeys, fun _ s => s⟩

/-- The `while self.status == BotStatus.PAUSED` loop of
`Bot.status_check_passed` (lines 161-174), indexed by iteration number
`i` and supplied with `fuel`: the result is `some (finalState, retval)`
when the loop (or the `return True` fall-through after it) is reached
within `fuel` iterations, and `none` when the loop is still running after
`fuel` iterations.  Each iteration polls the interrupt source, sleeps
(modelled as the interference point `sch.ext i`), returns `False` if
stopped, decrements the timeout, forces `STOPPED` and returns `False`
when the counter hits exactly 0, and otherwise logs a countdown message
and continues. -/
def statusLoop (sch : Sched) : ℕ → ℕ → ℤ → BotState → Option (BotState × Bool)
  | _, 0, _, _ => none
  | i, fuel + 1, timeout, s =>
    if s.status = PAUSED then
      let s1 := check_interrupt (sch.keys i) s
      let s2 := sch.ext i s1
      if s2.status = STOPPED then
        some (log_msg "Bot has been stopped." s2, false)
      else
        let t := timeout - 1
        if t = 0 then
          some (set_status STOPPED (log_msg "Timeout reached, stopping..." s2), false)
        else
          let s3 := if s2.status = PAUSED
                    then log_msg ("Terminating in " ++ toString t ++ ".") s2
                    else s2
          statusLoop sch (i + 1) fuel t s3
    else
      some (s, true)

/-- `Bot.status_check_passed` (lines 139-175).  `k0` is the key state at
the initial interrupt poll (line 153), `sch` the environment of the pause
loop, `fuel` the iteration budget of the loop (`none` means the call has
not returned within `fuel` loop iterations). -/
def status_check_passed (k0 : KeyState) (sch : Sched) (fuel : ℕ) (timeout : ℤ)
    (s : BotState) : Option (BotState × Bool) :=
  let s1 := check_interrupt k0 s
  if s1.status = STOPPED then
    some (log_msg "Bot has been stopped." s1, false)
  else if s1.status = PAUSED then
    statusLoop sch 0 fuel timeout (log_msg "Bot is paused.\n" s1)
  else
    some (s1, true)

/-! ## Text utilities (OCR post-processing) -/

/-- Lower-casing as used by `text.lower()` / `word.lower()` in `bot.py`
(ASCII text). -/
def strLower (s : String) : String := String.mk (s.data.map Char.toLower)

/-- The Python substring test `needle in hay` on character lists. -/
def containsSub (needle : List Char) : List Char → Bool
  | [] => needle.isEmpty
  | c :: rest => needle.isPrefixOf (c :: rest) || containsSub needle rest

/-- The Python substring test `needle in hay` on strings. -/
def strIn (needle hay : String) : Bool := containsSub needle.data hay.data

/-- `Bot.__any_in_str` (lines 328-337): the first word of `words` whose
lower-cased form occurs in `s`, as `(True, word)`, else `(False, None)`. -/
def any_in_str (words : List String) (s : String) : Bool × Option String :=
  match words.find? (fun w => strIn (strLower w) s) with
  | some w => (true, some w)
  | none => (false, none)

/-- The blacklist test of `search_text_in_rect` lines 301-305: only
performed when a blacklist was supplied. -/
def blacklistHit (blacklist : Option (List String)) (text : String) : Bool :=
  match blacklist with
  | some bl => (any_in_str bl text).1
  | none => false

/-- The `for _, text, _ in res` loop of `Bot.search_text_in_rect`
(lines 295-311), over the list of recognized text fragments, with the
`word_found` accumulator.  An empty fragment returns `None` immediately;
a blacklist hit returns `False` immediately; otherwise the expected words
are checked (only while `word_found` is still false) and the loop ends
with `True` if an expected word was seen and `None` otherwise. -/
def searchLoop (expected : List String) (blacklist : Option (List String)) :
    List String → Bool → Option Bool
  | [], word_found => if word_found then some true else none
  | text :: rest, word_found =>
    if text = "" then none
    else
      let t := strLower text
      if blacklistHit blacklist t then some false
      else
        let wf := if word_found then word_found else (any_in_str expected t).1
        searchLoop expected blacklist rest wf

/-- `Bot.search_text_in_rect` (lines 280-311), with the OCR output
(the recognized text fragments, in reading order) supplied as input.
`none` models the Python return value `None`. -/
def search_text_in_rect (frags expected : List String)
    (blacklist : Option (List String)) : Option Bool :=
  searchLoop expected blacklist frags false

/-- Maximal runs of digit characters, accumulating the current run in
reverse: the behaviour of Python `re.findall(r"\d+", text)`. -/
def digitRunsAux : List Char → List Char → List String
  | [], cur => if cur.isEmpty then [] else [String.mk cur.reverse]
  | c :: rest, cur =>
    if c.isDigit then digitRunsAux rest (c :: cur)
    else if cur.isEmpty then digitRunsAux rest []
    else String.mk cur.reverse :: digitRunsAux rest []

/-- `re.findall(r"\d+", text)` from `Bot.get_numbers_in_rect` line 324. -/
def findall_digits (text : String) : List String := digitRunsAux text.data []

/-- Python `int` on a string of digits. -/
def strToNat (s : String) : ℕ :=
  s.data.foldl (fun n c => 10 * n + (c.toNat - ('0').toNat)) 0

/-- `Bot.get_numbers_in_rect` (lines 313-326), with the OCR output text
supplied as input: every maximal digit run converted to an integer, in
order of occurrence, and `None` (the Python falsy-list coercion
`res or None`) when there is none. -/
def get_numbers_in_rect (text : String) : Option (List ℕ) :=
  let res := (findall_digits text).map strToNat
  if res.isEmpty then none else some res

/-! ## Helper lemmas -/

/-- Polling the interrupt source with no key held changes nothing. -/
lemma check_interrupt_quiet (s : BotState) : check_interrupt quietKeys s = s := by
  simp [check_interrupt, quietKeys]

lemma log_msg_status (m : String) (s : BotState) : (log_msg m s).status = s.status := rfl

lemma idSched_keys (i : ℕ) : idSched.keys i = quietKeys := rfl

lemma idSched_ext (i : ℕ) (s : BotState) : idSched.ext i s = s := rfl

/-- In the quiet environment, a pause loop seeded with timeout `n + 1` and
fuel `n + 1` exits through the timeout branch: status forced to `STOPPED`,
return value `False`. -/
lemma statusLoop_quiet (n : ℕ) : ∀ (i : ℕ) (s : BotState) (timeout : ℤ),
    timeout = (n : ℤ) + 1 → s.status = PAUSED →
    ∃ s', statusLoop idSched i (n + 1) timeout s = some (s', false) ∧
      s'.status = STOPPED := by
  induction n with
  | zero =>
    intro i s timeout ht hs
    have ht0 : timeout - 1 = 0 := by omega
    refine ⟨set_status STOPPED (log_msg "Timeout reached, stopping..." s), ?_, rfl⟩
    simp [statusLoop, hs, idSched, check_interrupt_quiet, ht0]
  | succ n ih =>
    intro i s timeout ht hs
    have ht1 : ¬ (timeout - 1 = 0) := by omega
    obtain ⟨s', hloop, hstop⟩ :=
      ih (i + 1) (log_msg ("Terminating in " ++ toString (timeout - 1) ++ ".") s)
        (timeout - 1) (by omega) (by simp [log_msg, hs])
    refine ⟨s', ?_, hstop⟩
    rw [statusLoop]
    simp only [idSched_keys, idSched_ext, check_interrupt_quiet, hs, log_msg_status]
    simp only [reduceCtorEq, if_false, if_true, ht1]
    exact hloop

/-- In the quiet environment, a pause loop seeded with a non-positive
timeout never exits, whatever the fuel: the counter is decremented past
zero and tested only for equality with 0. -/
lemma statusLoop_nonpos : ∀ (fuel i : ℕ) (timeout : ℤ) (s : BotState),
    timeout ≤ 0 → s.status = PAUSED →
    statusLoop idSched i fuel timeout s = none := by
  intro fuel
  induction fuel with
  | zero => intro i timeout s _ _; simp [statusLoop]
  | succ fuel ih =>
    intro i timeout s ht hs
    have ht1 : ¬ (timeout - 1 = 0) := by omega
    have hrec := ih (i + 1) (timeout - 1)
      (log_msg ("Terminating in " ++ toString (timeout - 1) ++ ".") s)
      (by omega) (by simp [log_msg, hs])
    rw [statusLoop]
    simp only [idSched_keys, idSched_ext, check_interrupt_quiet, hs, log_msg_status]
    simp only [reduceCtorEq, if_false, if_true, ht1]
    exact hrec

/-- The fragment loop of `search_text_in_rect`, on fragments that are all
non-empty, computes the tri-state result: `False` on any blacklist hit,
else `True` when the accumulator is set or some fragment has an expected
word, else `None`. -/
lemma searchLoop_spec (expected : List String) (blacklist : Option (List String)) :
    ∀ (frags : List String) (wf : Bool), (∀ f ∈ frags, f ≠ "") →
    searchLoop expected blacklist frags wf =
      if frags.any (fun f => blacklistHit blacklist (strLower f)) then some false
      else if wf || frags.any (fun f => (any_in_str expected (strLower f)).1)
        then some true
      else none := by
  intro frags
  induction frags with
  | nil => intro wf _; simp [searchLoop]
  | cons f rest ih =>
    intro wf h
    have hf : f ≠ "" := h f (by simp)
    have hrest : ∀ g ∈ rest, g ≠ "" := fun g hg => h g (by simp [hg])
    by_cases hb : blacklistHit blacklist (strLower f)
    · simp [searchLoop, hf, hb]
    · rw [searchLoop]
      rw [if_neg hf]
      rw [if_neg hb, ih _ hrest]
      cases wf <;>
        by_cases he : (any_in_str expected (strLower f)).1 <;>
          simp [hb, he, Bool.or_assoc]

/-! ## Claim theorems -/

/-- C1: if `status_check_passed(timeout)` is called while the status is
`PAUSED` and the status remains `PAUSED` throughout the wait (quiet
environment: no key press, no external status write), then for every
`timeout ≥ 1` the pause loop terminates within `timeout` iterations
(a fuel of `timeout.toNat` loop iterations suffices), the final status is
`STOPPED`, and the call returns `False`. -/
theorem C1_pause_timeout_stops (timeout : ℤ) (h1 : 1 ≤ timeout)
    (s : BotState) (hs : s.status = PAUSED) :
    ∃ s', status_check_passed quietKeys idSched timeout.toNat timeout s =
      some (s', false) ∧ s'.status = STOPPED := by
  obtain ⟨n, hn⟩ : ∃ n : ℕ, timeout = (n : ℤ) + 1 := ⟨(timeout - 1).toNat, by omega⟩
  have hfuel : timeout.toNat = n + 1 := by omega
  obtain ⟨s', hloop, hstop⟩ :=
    statusLoop_quiet n 0 (log_msg "Bot is paused.\n" s) timeout hn (by simp [log_msg, hs])
  refine ⟨s', ?_, hstop⟩
  rw [hfuel]
  simp [status_check_passed, check_interrupt_quiet, hs, hloop]

theorem C1_witness :
    (1 : ℤ) ≤ 3 ∧
    ∃ s', status_check_passed quietKeys idSched (3 : ℤ).toNat 3
        { initBot with status := PAUSED } = some (s', false) ∧
      s'.status = STOPPED :=
  ⟨by decide, C1_pause_timeout_stops 3 (by decide) { initBot with status := PAUSED } rfl⟩

/-- C10: if `status_check_passed` is called with `timeout ≤ 0` while the
status is `PAUSED` (quiet environment), the timeout fail-safe never
fires: the counter is only tested for equality with 0 after being
decremented, so it skips past 0 and the call never returns, for every
iteration budget. -/
theorem C10_nonpos_timeout_never_fires (timeout : ℤ) (ht : timeout ≤ 0)
    (fuel : ℕ) (s : BotState) (hs : s.status = PAUSED) :
    status_check_passed quietKeys idSched fuel timeout s = none := by
  have hrec := statusLoop_nonpos fuel 0 timeout (log_msg "Bot is paused.\n" s)
    ht (by simp [log_msg, hs])
  simp [status_check_passed, check_interrupt_quiet, hs, hrec]

theorem C10_witness :
    (0 : ℤ) ≤ 0 ∧
    status_check_passed quietKeys idSched 5 0 { initBot with status := PAUSED } = none :=
  ⟨by decide,
   C10_nonpos_timeout_never_fires 0 (by decide) 5 { initBot with status := PAUSED } rfl⟩

/-- C2: `play_pause` from `STOPPED` with `options_set` true sets the
status to `RUNNING`, resets progress to 0, and launches exactly one new
worker thread. -/
theorem C2_start_launches_worker (s : BotState) (hs : s.status = STOPPED)
    (ho : s.options_set = true) :
    (play_pause s).status = RUNNING ∧ (play_pause s).progress = 0 ∧
    (play_pause s).threadsStarted = s.threadsStarted + 1 := by
  simp [play_pause, hs, ho, clear_log, log_msg, reset_progress, set_status]

theorem C2_witness :
    ({ initBot with options_set := true, progress := 1/2 } : BotState).status = STOPPED ∧
    (play_pause { initBot with options_set := true, progress := 1/2 }).status = RUNNING ∧
    (play_pause { initBot with options_set := true, progress := 1/2 }).progress = 0 ∧
    (play_pause { initBot with options_set := true, progress := 1/2 }).threadsStarted =
      ({ initBot with options_set := true, progress := 1/2 } : BotState).threadsStarted + 1 :=
  ⟨rfl, C2_start_launches_worker { initBot with options_set := true, progress := 1/2 } rfl rfl⟩

/-- C3: `play_pause` from `STOPPED` without `options_set` leaves status,
progress, thread count and both notification counts unchanged, and
produces the user-visible log message. -/
theorem C3_start_without_options_noop (s : BotState) (hs : s.status = STOPPED)
    (ho : s.options_set = false) :
    (play_pause s).status = s.status ∧ (play_pause s).progress = s.progress ∧
    (play_pause s).threadsStarted = s.threadsStarted ∧
    (play_pause s).notifyStatus = s.notifyStatus ∧
    (play_pause s).notifyProgress = s.notifyProgress ∧
    "Options not set. Please set options before starting." ∈ (play_pause s).log := by
  simp [play_pause, hs, ho, clear_log, log_msg]

theorem C3_witness :
    initBot.status = STOPPED ∧ initBot.options_set = false ∧
    (play_pause initBot).status = initBot.status ∧
    (play_pause initBot).progress = initBot.progress ∧
    (play_pause initBot).threadsStarted = initBot.threadsStarted ∧
    "Options not set. Please set options before starting." ∈ (play_pause initBot).log :=
  ⟨rfl, rfl, (C3_start_without_options_noop initBot rfl rfl).1,
   (C3_start_without_options_noop initBot rfl rfl).2.1,
   (C3_start_without_options_noop initBot rfl rfl).2.2.1,
   (C3_start_without_options_noop initBot rfl rfl).2.2.2.2.2⟩

/-- C4: `stop` from a non-`STOPPED` state forces status `STOPPED` and
progress 0; a second `stop` leaves status `STOPPED` and progress 0,
performs no status or progress mutation (notification counts unchanged,
no thread launched), and logs the already-stopped message. -/
theorem C4_stop_idempotent (s : BotState) (hs : s.status ≠ STOPPED) :
    (stop s).status = STOPPED ∧ (stop s).progress = 0 ∧
    (stop (stop s)).status = STOPPED ∧ (stop (stop s)).progress = 0 ∧
    (stop (stop s)).notifyStatus = (stop s).notifyStatus ∧
    (stop (stop s)).notifyProgress = (stop s).notifyProgress ∧
    (stop (stop s)).threadsStarted = (stop s).threadsStarted ∧
    "Bot is already stopped." ∈ (stop (stop s)).log := by
  simp [stop, hs, log_msg, set_status, reset_progress]

theorem C4_witness :
    ({ initBot with status := RUNNING, progress := 3/4 } : BotState).status ≠ STOPPED ∧
    (stop { initBot with status := RUNNING, progress := 3/4 }).status = STOPPED ∧
    (stop { initBot with status := RUNNING, progress := 3/4 }).progress = 0 ∧
    (stop (stop { initBot with status := RUNNING, progress := 3/4 })).status = STOPPED ∧
    (stop (stop { initBot with status := RUNNING, progress := 3/4 })).progress = 0 :=
  ⟨by decide,
   (C4_stop_idempotent { initBot with status := RUNNING, progress := 3/4 } (by decide)).1,
   (C4_stop_idempotent { initBot with status := RUNNING, progress := 3/4 } (by decide)).2.1,
   (C4_stop_idempotent { initBot with status := RUNNING, progress := 3/4 } (by decide)).2.2.1,
   (C4_stop_idempotent { initBot with status := RUNNING, progress := 3/4 } (by decide)).2.2.2.1⟩

/-- C5: `play_pause` from `RUNNING` yields `PAUSED`; applied again it
yields `RUNNING`, with progress and the thread count unchanged by the
round trip. -/
theorem C5_pause_resume_round_trip (s : BotState) (hs : s.status = RUNNING) :
    (play_pause s).status = PAUSED ∧
    (play_pause (play_pause s)).status = RUNNING ∧
    (play_pause (play_pause s)).progress = s.progress ∧
    (play_pause (play_pause s)).threadsStarted = s.threadsStarted := by
  simp [play_pause, hs, log_msg, set_status]

theorem C5_witness :
    ({ initBot with status := RUNNING } : BotState).status = RUNNING ∧
    (play_pause { initBot with status := RUNNING }).status = PAUSED ∧
    (play_pause (play_pause { initBot with status := RUNNING })).status = RUNNING :=
  ⟨rfl, (C5_pause_resume_round_trip { initBot with status := RUNNING } rfl).1,
   (C5_pause_resume_round_trip { initBot with status := RUNNING } rfl).2.1⟩

/-- C6 counterexample: with the pause key and the stop key held together
and status `RUNNING`, `check_interrupt` takes the pause branch of its
`elif` chain, so `stop` is not invoked: the result has status `PAUSED`,
whereas `stop` would give status `STOPPED`. -/
theorem C6_counterexample :
    (check_interrupt ⟨true, false, true⟩ { initBot with status := RUNNING }).status = PAUSED ∧
    (stop { initBot with status := RUNNING }).status = STOPPED ∧
    check_interrupt ⟨true, false, true⟩ { initBot with status := RUNNING } ≠
      stop { initBot with status := RUNNING } := by
  refine ⟨rfl, rfl, fun h => ?_⟩
  exact absurd (congrArg BotState.status h) (by decide)

/-- C6 amended: `check_interrupt` invokes `stop` exactly when the stop key
is pressed and neither the pause key nor the resume key is pressed (the
`elif` chain gives those two keys priority); in that case the handling is
state-independent. -/
theorem C6_stop_key_handling (k : KeyState) (s : BotState)
    (hstop : k.stopKey = true) (hp : k.pauseKey = false) (hr : k.resumeKey = false) :
    check_interrupt k s = stop s := by
  simp [check_interrupt, hstop, hp, hr]

theorem C6_witness :
    check_interrupt ⟨false, false, true⟩ { initBot with status := RUNNING } =
      stop { initBot with status := RUNNING } :=
  C6_stop_key_handling ⟨false, false, true⟩ { initBot with status := RUNNING } rfl rfl rfl

/-- C7 counterexample: with recognized fragments `["", "bad"]`, a
blacklist containing "bad" and no expected words, the second fragment
contains a blacklisted word, yet the function returns `None` (the empty
first fragment triggers the early indeterminate return), not `False` as
the claim requires. -/
theorem C7_counterexample :
    blacklistHit (some ["bad"]) (strLower "bad") = true ∧
    search_text_in_rect ["", "bad"] [] (some ["bad"]) = none ∧
    (none : Option Bool) ≠ some false := by
  refine ⟨?_, rfl, by decide⟩
  decide

/-- C7 amended: provided every recognized fragment is non-empty (an empty
or missing fragment makes the function return the indeterminate `None`
immediately, ignoring the remaining fragments), `search_text_in_rect` is
the tri-state: `False` when any fragment contains a blacklisted word,
else `True` when some fragment contains an expected word, else `None`. -/
theorem C7_tri_state (frags expected : List String) (blacklist : Option (List String))
    (h : ∀ f ∈ frags, f ≠ "") :
    search_text_in_rect frags expected blacklist =
      if frags.any (fun f => blacklistHit blacklist (strLower f)) then some false
      else if frags.any (fun f => (any_in_str expected (strLower f)).1) then some true
      else none := by
  rw [search_text_in_rect, searchLoop_spec expected blacklist frags false h]
  simp

theorem C7_witness :
    search_text_in_rect ["hello Bad here"] ["xyz"] (some ["bad"]) = some false := by
  rw [C7_tri_state ["hello Bad here"] ["xyz"] (some ["bad"]) (by decide)]
  decide

/-- C8: `get_numbers_in_rect` on "Gold: 1200 Silver: 50" yields
`[1200, 50]` and on digit-free text yields `None`, as claimed — but it
does not deduplicate: on "5 5" it returns `[5, 5]`, which has duplicate
values, contradicting the claim and the function docstring ("The
distinct numbers found in the rectangle"). -/
theorem C8_numbers_not_distinct :
    get_numbers_in_rect "Gold: 1200 Silver: 50" = some [1200, 50] ∧
    get_numbers_in_rect "no digits here" = none ∧
    get_numbers_in_rect "5 5" = some [5, 5] ∧
    ¬ ([5, 5] : List ℕ).Nodup := by
  refine ⟨by decide, by decide, by decide, by decide⟩

/-- C9 counterexample: `update_progress` stores its argument without any
clamping or validation, so a single call drives progress outside [0,1]. -/
theorem C9_counterexample :
    (update_progress 2 initBot).progress = 2 ∧
    ¬ ((update_progress 2 initBot).progress ≤ 1) := by
  refine ⟨rfl, by norm_num [update_progress, initBot]⟩

/-- C9 amended: progress is 0 initially and reset to 0 by a successful
start and by a stopping `stop`; `reset_progress` and `update_progress`
each trigger exactly one controller notification; `update_progress`
stores the given value unvalidated, hence keeps progress within [0,1]
only when the caller supplies a value within [0,1]. -/
theorem C9_progress_behaviour :
    initBot.progress = 0 ∧
    (∀ s : BotState, (reset_progress s).progress = 0 ∧
      (reset_progress s).notifyProgress = s.notifyProgress + 1) ∧
    (∀ (p : ℚ) (s : BotState), (update_progress p s).progress = p ∧
      (update_progress p s).notifyProgress = s.notifyProgress + 1) ∧
    (∀ s : BotState, s.status = STOPPED → s.options_set = true →
      (play_pause s).progress = 0) ∧
    (∀ s : BotState, s.status ≠ STOPPED → (stop s).progress = 0) ∧
    (∀ (p : ℚ) (s : BotState), 0 ≤ p → p ≤ 1 →
      0 ≤ (update_progress p s).progress ∧ (update_progress p s).progress ≤ 1) := by
  refine ⟨rfl, fun s => ⟨rfl, rfl⟩, fun p s => ⟨rfl, rfl⟩, ?_, ?_, ?_⟩
  · intro s hs ho
    simp [play_pause, hs, ho, clear_log, log_msg, reset_progress, set_status]
  · intro s hs
    simp [stop, hs, log_msg, set_status, reset_progress]
  · intro p s h0 h1
    exact ⟨h0, h1⟩

theorem C9_witness :
    (update_progress (1/2) initBot).progress = 1/2 ∧
    0 ≤ (update_progress (1/2) initBot).progress ∧
    (update_progress (1/2) initBot).progress ≤ 1 ∧
    (play_pause { initBot with options_set := true }).progress = 0 ∧
    (stop { initBot with status := RUNNING }).progress = 0 :=
  ⟨(C9_progress_behaviour.2.2.1 (1/2) initBot).1,
   (C9_progress_behaviour.2.2.2.2.2 (1/2) initBot (by norm_num) (by norm_num)).1,
   (C9_progress_behaviour.2.2.2.2.2 (1/2) initBot (by norm_num) (by norm_num)).2,
   C9_progress_behaviour.2.2.2.1 { initBot with options_set := true } rfl rfl,
   C9_progress_behaviour.2.2.2.2.1 { initBot with status := RUNNING } (by decide)⟩

end BotModel
